import Mathlib

/-!
Verification of the hdfilmcehennemi-stremio resolution-and-extraction pipeline.

Shallow embedding of the JavaScript modules `src/scraper.js`, `src/proxy.js`
and `src/search.js`.  Strings manipulated byte-wise by the cipher are modelled
as lists of character codes (`List Nat`); ordinary strings stay `String`.
Network effects are modelled by explicit oracle functions passed as arguments
(the outcome of each fetch), and the module-level caches by explicit state
records, so every function here is pure and executable.
-/

namespace HDFC

/-- Error taxonomy of `src/errors.js`, as a tagged variant: `network` carries
the URL and the optional HTTP status, `timeout` the URL and the bound in ms
(a `TimeoutError` is a specialisation of `NetworkError` in the source),
`scraping` the message and page URL, `notFound` the query, `validation` the
message and field name. -/
inductive Err where
  | network (msg : String) (url : String) (status : Option Nat)
  | timeout (url : String) (ms : Nat)
  | scraping (msg : String) (url : String)
  | notFound (query : String)
  | validation (msg : String) (field : String)
deriving DecidableEq, Repr

/-- JavaScript `hay.includes(needle)` on lists: some tail of `hay` starts with
`needle` (true for the empty needle, as in JS). -/
def listIncludes (hay needle : List Char) : Bool :=
  hay.tails.any (fun t => needle.isPrefixOf t)

/-- JavaScript `url.includes(sub)` on Lean strings. -/
def strIncludes (hay needle : String) : Bool :=
  listIncludes hay.data needle.data

/-! ## Cipher (`src/scraper.js`, `rot13` and `decodeVideoUrl`)

The cipher operates on single-byte (Latin-1) character codes, so strings are
modelled as `List Nat` of codes. -/

/-- ROT13 on one character code, translated from `rot13` in `src/scraper.js`:
only `[a-zA-Z]` is touched; the matched char is compared against `Z` to pick
the wrap bound 90 (uppercase) or 122 (lowercase). -/
def rot13Char (n : Nat) : Nat :=
  if (65 ≤ n ∧ n ≤ 90) ∨ (97 ≤ n ∧ n ≤ 122) then
    let m := n + 13
    let bound := if n ≤ 90 then 90 else 122
    if m ≤ bound then m else m - 26
  else n

/-- Base64 value of a character code, for the alphabet Node's decoder accepts
(`A-Z`, `a-z`, `0-9`, `+`, `/` and the url-safe `-`, `_`); everything else
(including `=` padding) is skipped, as `Buffer.from(value, 'base64')` ignores
characters outside the alphabet. -/
def b64Index (c : Nat) : Option Nat :=
  if 65 ≤ c ∧ c ≤ 90 then some (c - 65)
  else if 97 ≤ c ∧ c ≤ 122 then some (c - 97 + 26)
  else if 48 ≤ c ∧ c ≤ 57 then some (c - 48 + 52)
  else if c = 43 ∨ c = 45 then some 62
  else if c = 47 ∨ c = 95 then some 63
  else none

/-- Regroup base64 sextets into bytes: four sextets give three bytes; a
trailing pair gives one byte and a trailing triple two bytes, a lone trailing
sextet nothing (Node's behaviour for unpadded input). -/
def b64Group : List Nat → List Nat
  | a :: b :: c :: d :: rest =>
      (a * 4 + b / 16) :: ((b % 16) * 16 + c / 4) :: ((c % 4) * 64 + d) :: b64Group rest
  | [a, b, c] => [a * 4 + b / 16, (b % 16) * 16 + c / 4]
  | [a, b] => [a * 4 + b / 16]
  | _ => []

/-- Model of `Buffer.from(value, 'base64').toString('latin1')`: keep the
alphabet characters, regroup into bytes; `latin1` makes each decoded byte one
character code. -/
def base64DecodeLatin1 (l : List Nat) : List Nat :=
  b64Group (l.filterMap b64Index)

/-- Magic shift used at position `i` of the unmix stage:
`399756995 % (i + 5)` (`src/scraper.js` line 361). -/
def magicShift (i : Nat) : Nat := 399756995 % (i + 5)

/-- JavaScript `String.fromCharCode`: the argument is reduced modulo 2^16
(`ToUint16`). -/
def jsUint16 (x : Int) : Nat := (x % 65536).toNat

/-- Unmix loop of `decodeVideoUrl` from position `i` on: each code becomes
`(charCode - (399756995 % (i + 5)) + 256) % 256` with JavaScript `%`
(truncated remainder, so the result can be negative when the shift exceeds
`charCode + 256`), then passes through `String.fromCharCode`. -/
def unmixFrom (i : Nat) : List Nat → List Nat
  | [] => []
  | c :: rest =>
      jsUint16 (((c : Int) - (magicShift i : Int) + 256).tmod 256) :: unmixFrom (i + 1) rest

/-- Unmix stage of `decodeVideoUrl` (loop from `i = 0`). -/
def unmix (l : List Nat) : List Nat := unmixFrom 0 l

/-- The cipher decoder `decodeVideoUrl` of `src/scraper.js`: join the parts,
reverse, base64-decode as Latin-1, ROT13, then unmix. -/
def decodeVideoUrl (parts : List (List Nat)) : List Nat :=
  let value := parts.flatten
  let v1 := value.reverse
  let v2 := base64DecodeLatin1 v1
  let v3 := v2.map rot13Char
  unmix v3

/-- Modelled from the spec: the unmix stage as worded there — shift each code
at position `i` backward by `399756995 mod (i + 5)`, modulo 256. -/
def specUnmixFrom (i : Nat) : List Nat → List Nat
  | [] => []
  | c :: rest =>
      (((c : Int) - (magicShift i : Int)) % 256).toNat :: specUnmixFrom (i + 1) rest

/-- Modelled from the spec: unmix as worded in the spec, from position 0. -/
def specUnmix (l : List Nat) : List Nat := specUnmixFrom 0 l

/-- Modelled from the spec: the full stage sequence in the spec's order —
concatenate, ROT13, reverse, base64-decode as Latin-1, unmix. -/
def specOrderDecode (parts : List (List Nat)) : List Nat :=
  specUnmix (base64DecodeLatin1 ((parts.flatten.map rot13Char).reverse))

/-- One unmix character computed with the code's formula agrees with the
spec's backward shift modulo 256 whenever the input code is a byte and the
shift is at most 255. -/
theorem unmixChar_agrees (c m : Nat) (hm : m ≤ 255) :
    jsUint16 (((c : Int) - (m : Int) + 256).tmod 256) =
      (((c : Int) - (m : Int)) % 256).toNat := by
  have h0 : (0 : Int) ≤ (c : Int) - m + 256 := by omega
  rw [Int.tmod_eq_emod h0 (by norm_num)]
  have h1 : ((c : Int) - m + 256) % 256 = ((c : Int) - m) % 256 := by
    omega
  rw [h1]
  unfold jsUint16
  have h2 : (0 : Int) ≤ ((c : Int) - m) % 256 := Int.emod_nonneg _ (by norm_num)
  have h3 : ((c : Int) - m) % 256 < 65536 :=
    lt_of_lt_of_le (Int.emod_lt_of_pos _ (by norm_num)) (by norm_num)
  rw [Int.emod_eq_of_lt h2 h3]

/-- The code's unmix loop and the spec's unmix agree from any position `i`
as long as every position stays below 252 (so the magic shift stays below
256). -/
theorem unmixFrom_eq_specUnmixFrom (l : List Nat) (i : Nat)
    (hlen : i + l.length ≤ 252) :
    unmixFrom i l = specUnmixFrom i l := by
  induction l generalizing i with
  | nil => rfl
  | cons c rest ih =>
    have him : magicShift i < i + 5 := Nat.mod_lt _ (by omega)
    have hm : magicShift i ≤ 255 := by
      simp only [List.length_cons] at hlen
      omega
    simp only [unmixFrom, specUnmixFrom]
    rw [unmixChar_agrees c (magicShift i) hm]
    rw [ih (i + 1) (by simp only [List.length_cons] at hlen; omega)]

end HDFC

namespace HDFC

/-- C1 counterexample: on the parts list `["QUJD"]` (codes
`[[81, 85, 74, 68]]`) the code's decoder and the spec's stage order give
different outputs, so `decodeVideoUrl` does not compute the spec's stage
sequence in the spec's order. -/
theorem decodeVideoUrl_spec_order_counterexample :
    decodeVideoUrl [[81, 85, 74, 68]] ≠ specOrderDecode [[81, 85, 74, 68]] := by
  decide

/-- C1 (amended): `decodeVideoUrl` concatenates the parts, reverses, then
base64-decodes as Latin-1, then applies ROT13, then unmixes — reverse and
base64-decode come before ROT13, not after; and the code's unmix stage
(JavaScript `(c - shift + 256) % 256` through `fromCharCode`) coincides with
the spec's backward shift modulo 256 on all byte strings of length at most
252. -/
theorem decodeVideoUrl_stage_order :
    (∀ parts : List (List Nat),
        decodeVideoUrl parts =
          unmix ((base64DecodeLatin1 (parts.flatten.reverse)).map rot13Char))
    ∧ (∀ l : List Nat, l.length ≤ 252 → unmix l = specUnmix l) :=
  ⟨fun _ => rfl,
   fun l h => unmixFrom_eq_specUnmixFrom l 0 (by omega)⟩

/-- Witness for `decodeVideoUrl_stage_order`: the two unmix stages agree on a
concrete short byte string. -/
theorem decodeVideoUrl_stage_order_witness :
    unmix [72, 200, 5] = specUnmix [72, 200, 5] :=
  decodeVideoUrl_stage_order.2 [72, 200, 5] (by decide)

/-! ## Proxy pool (`src/proxy.js`)

The module state `proxyListCache` becomes an explicit `PoolState` record;
`Date.now()` and the outcomes of the feed fetches, the shuffle and the live
proxy test become oracle arguments. -/

/-- A proxy entry `{ address: 'ip:port', type: 'http'|'socks4'|'socks5' }`
(the source's `type` field is spelled `ptype`, `type` being reserved in
Lean). -/
structure Proxy where
  address : String
  ptype : String
deriving DecidableEq, Repr

/-- The module-level `proxyListCache` of `src/proxy.js`: raw candidate list,
its refresh timestamp, and the known-good subset. -/
structure PoolState where
  proxies : List Proxy
  timestamp : Int
  workingProxies : List Proxy
deriving DecidableEq, Repr

/-- Candidate-list TTL, `CONFIG.cacheTTL = 10 * 60 * 1000`. -/
def cacheTTL : Int := 10 * 60 * 1000

/-- Deduplicate by address keeping the first occurrence (the `seen` set
filter in `fetchProxyList`). -/
def dedupByAddress (seen : List String) : List Proxy → List Proxy
  | [] => []
  | p :: rest =>
      if seen.contains p.address then dedupByAddress seen rest
      else p :: dedupByAddress (p.address :: seen) rest

/-- The candidate-list refresh `fetchProxyList`: serve from cache inside the
TTL; otherwise merge the feed results (`feeds` is the list of per-source
outcomes, a failed source contributing `[]`), deduplicate by address, and
update `proxies`/`timestamp` only when the merged list is nonempty.  The
known-good set is never touched. -/
def fetchProxyList (now : Int) (feeds : List (List Proxy)) (s : PoolState) :
    List Proxy × PoolState :=
  if 0 < s.proxies.length ∧ now - s.timestamp < cacheTTL then (s.proxies, s)
  else
    let uniqueProxies := dedupByAddress [] feeds.flatten
    if 0 < uniqueProxies.length then
      (uniqueProxies, { s with proxies := uniqueProxies, timestamp := now })
    else (s.proxies, s)

/-- Eviction `markProxyBad`: drop every known-good entry with the given
address. -/
def markProxyBad (proxy : Proxy) (s : PoolState) : PoolState :=
  { s with workingProxies := s.workingProxies.filter (fun p => p.address != proxy.address) }

/-- Retry loop of `getWorkingProxy` (`maxRetries = 5` rounds): refresh the
candidate list (forcing it from round two on by zeroing the timestamp),
shuffle, test the first 100 candidates with the live `testProxy` oracle, and
promote the first passing one into the known-good set.  `shuffle` and `feeds`
are per-round oracles for `Math.random`-based ordering and the feed fetches,
`nowAt` for `Date.now()`. -/
def gwpLoop (test : Proxy → Bool) (shuffle : Nat → List Proxy → List Proxy)
    (feeds : Nat → List (List Proxy)) (nowAt : Nat → Int)
    (attempt : Nat) : Nat → PoolState → Option Proxy × PoolState
  | 0, s => (none, s)
  | remaining + 1, s =>
    let s1 := if 1 < attempt then { s with timestamp := 0 } else s
    let (proxies, s2) := fetchProxyList (nowAt attempt) (feeds attempt) s1
    if proxies.isEmpty then
      gwpLoop test shuffle feeds nowAt (attempt + 1) remaining s2
    else
      let toTest := (shuffle attempt proxies).take 100
      match toTest.find? (fun p => test p) with
      | some p => (some p, { s2 with workingProxies := s2.workingProxies ++ [p] })
      | none => gwpLoop test shuffle feeds nowAt (attempt + 1) remaining s2

/-- The pool entry point `getWorkingProxy`: `none` when proxies are disabled;
otherwise reuse the first cached known-good proxy without re-testing, else
run up to five discovery rounds. -/
def getWorkingProxy (proxyNever : Bool) (test : Proxy → Bool)
    (shuffle : Nat → List Proxy → List Proxy) (feeds : Nat → List (List Proxy))
    (nowAt : Nat → Int) (s : PoolState) : Option Proxy × PoolState :=
  if proxyNever then (none, s)
  else
    match s.workingProxies with
    | p :: _ => (some p, s)
    | [] => gwpLoop test shuffle feeds nowAt 1 5 s

/-- C4: refreshing the raw candidate list never removes or replaces an entry
of the known-good set, whatever the feeds return and whatever the clock
says: the post-state's `workingProxies` is exactly the pre-state's. -/
theorem fetchProxyList_preserves_workingProxies
    (now : Int) (feeds : List (List Proxy)) (s : PoolState) :
    ((fetchProxyList now feeds s).2).workingProxies = s.workingProxies := by
  unfold fetchProxyList
  split
  · rfl
  · dsimp only
    split
    · rfl
    · rfl

/-- Discovery rounds only ever hand out a proxy that passed the live test. -/
theorem gwpLoop_tested (test : Proxy → Bool) (shuffle : Nat → List Proxy → List Proxy)
    (feeds : Nat → List (List Proxy)) (nowAt : Nat → Int) :
    ∀ (remaining attempt : Nat) (s : PoolState) (q : Proxy),
      (gwpLoop test shuffle feeds nowAt attempt remaining s).1 = some q →
      test q = true := by
  intro remaining
  induction remaining with
  | zero => intro attempt s q h; simp [gwpLoop] at h
  | succ r ih =>
    intro attempt s q h
    simp only [gwpLoop] at h
    split at h <;> split at h <;> try exact ih _ _ q h
    all_goals
      split at h
      case _ p hfind =>
        have hpq : some p = some q := h
        obtain rfl := Option.some.inj hpq
        exact List.find?_some hfind
      case _ => exact ih _ _ q h

/-- C5: after `markProxyBad p`, no entry with `p`'s address remains in the
known-good set, and any proxy with that address that a subsequent
`getWorkingProxy` hands out must have passed the live `testProxy` oracle
again. -/
theorem markProxyBad_eviction (p : Proxy) (s : PoolState) :
    (∀ q ∈ (markProxyBad p s).workingProxies, q.address ≠ p.address)
    ∧ (∀ (test : Proxy → Bool) (shuffle : Nat → List Proxy → List Proxy)
        (feeds : Nat → List (List Proxy)) (nowAt : Nat → Int) (q : Proxy),
        (getWorkingProxy false test shuffle feeds nowAt (markProxyBad p s)).1 = some q →
        q.address = p.address → test q = true) := by
  constructor
  · intro q hq
    have hfq := List.of_mem_filter hq
    simpa using hfq
  · intro test shuffle feeds nowAt q hq haddr
    unfold getWorkingProxy at hq
    rw [if_neg (by simp)] at hq
    split at hq
    case _ q0 rest heq =>
      have hpq : some q0 = some q := hq
      obtain rfl := Option.some.inj hpq
      have hmem : q0 ∈ (markProxyBad p s).workingProxies := by
        rw [heq]; exact List.mem_cons_self _ _
      have hfq := List.of_mem_filter hmem
      simp at hfq
      exact absurd haddr hfq
    case _ => exact gwpLoop_tested test shuffle feeds nowAt 5 1 _ q hq

/-- Witness for `markProxyBad_eviction`: a concrete pool whose only
known-good proxy is evicted; re-discovery promotes it again only through a
passing test. -/
theorem markProxyBad_eviction_witness :
    (fun (_ : Proxy) => true) (Proxy.mk "1.2.3.4:80" "http") = true :=
  (markProxyBad_eviction (Proxy.mk "1.2.3.4:80" "http")
      (PoolState.mk [] 0 [Proxy.mk "1.2.3.4:80" "http"])).2
    (fun _ => true) (fun _ l => l) (fun _ => [[Proxy.mk "1.2.3.4:80" "http"]])
    (fun _ => 999999999) (Proxy.mk "1.2.3.4:80" "http") (by decide) rfl

/-! ## Resilient fetcher (`src/scraper.js`, `httpGet` and `tryFetchWithProxy`)

The outcome of each raw `fetch` attempt becomes an oracle argument: the
direct phase sees `direct : Nat → FetchOutcome` (attempt number to outcome),
the proxy phase sees `getProxy : Nat → Option Proxy` (the result of
`getWorkingProxy` at each proxy attempt) and `tryFetch : Proxy → Option
String` (the result of `tryFetchWithProxy`, already `none` when all its
retries failed).  Sleeps and logging are dropped. -/

/-- Target-domain check `isHdfilmcehennemiUrl`. -/
def isHdfilmcehennemiUrl (url : String) : Bool :=
  strIncludes url "hdfilmcehennemi.ws" || strIncludes url "hdfilmcehennemi.mobi"

/-- Cloudflare challenge markers checked by the direct phase of `httpGet`. -/
def cfChallengeDirect (body : String) : Bool :=
  strIncludes body "cf-browser-verification" || strIncludes body "Just a moment"
    || strIncludes body "challenge-platform"

/-- Raw outcome of one `fetch` call: an HTTP response, an abort by the
timeout controller, or a transport failure. -/
inductive FetchOutcome where
  | response (status : Nat) (body : String)
  | abortTimeout
  | netFail (msg : String)
deriving DecidableEq, Repr

/-- Result of processing one direct attempt, following `httpGet`'s loop body:
a 403 on the target domain or a challenge body flips to the proxy phase
(`blocked`); a non-2xx status or a transport error becomes the caught
`lastError` (`failed`, with `AbortError` normalised to `TimeoutError` and
anything else to `NetworkError`); otherwise the body is returned. -/
inductive DirectStep where
  | success (body : String)
  | blocked
  | failed (e : Err)
deriving DecidableEq, Repr

/-- One direct attempt of `httpGet` (timeout 15000 ms, per `CONFIG`). -/
def directAttempt (url : String) (o : FetchOutcome) : DirectStep :=
  match o with
  | .response status body =>
      if status = 403 ∧ isHdfilmcehennemiUrl url then .blocked
      else if ¬ (200 ≤ status ∧ status ≤ 299) then
        .failed (.network (s!"HTTP {status}") url (some status))
      else if isHdfilmcehennemiUrl url ∧ cfChallengeDirect body then .blocked
      else .success body
  | .abortTimeout => .failed (.timeout url 15000)
  | .netFail msg => .failed (.network msg url none)

/-- Result of the whole direct phase: success, aborted by a block signal
(carrying the `lastError` recorded so far), or exhausted after
`CONFIG.maxRetries` attempts (carrying the last caught error). -/
inductive DirectResult where
  | success (body : String)
  | blocked (last : Option Err)
  | exhausted (last : Option Err)
deriving DecidableEq, Repr

/-- The direct retry loop of `httpGet`, attempts numbered from `attempt` with
`remaining` tries left and `last` the `lastError` so far. -/
def directLoop (url : String) (direct : Nat → FetchOutcome) :
    Nat → Nat → Option Err → DirectResult
  | _, 0, last => .exhausted last
  | attempt, remaining + 1, last =>
    match directAttempt url (direct attempt) with
    | .success body => .success body
    | .blocked => .blocked last
    | .failed e => directLoop url direct (attempt + 1) remaining (some e)

/-- The direct phase: `CONFIG.maxRetries = 3` attempts starting at 1. -/
def directPhase (url : String) (direct : Nat → FetchOutcome) : DirectResult :=
  directLoop url direct 1 3 none

/-- The proxy phase loop of `httpGet` (`CONFIG.maxProxyAttempts = 5`): each
round asks the pool for a proxy (`none` means waiting for a refresh),
skips proxies already tried by address, and otherwise runs
`tryFetchWithProxy`; the first body wins. -/
def proxyLoop (getProxy : Nat → Option Proxy) (tryFetch : Proxy → Option String) :
    Nat → Nat → List String → Option String
  | _, 0, _ => none
  | attempt, remaining + 1, tried =>
    match getProxy attempt with
    | none => proxyLoop getProxy tryFetch (attempt + 1) remaining tried
    | some proxy =>
      if tried.contains proxy.address then
        proxyLoop getProxy tryFetch (attempt + 1) remaining tried
      else
        match tryFetch proxy with
        | some body => some body
        | none => proxyLoop getProxy tryFetch (attempt + 1) remaining (tried ++ [proxy.address])

/-- The resilient fetcher `httpGet`: direct phase first unless proxy policy
is `always` on a target-domain URL; the proxy phase runs only when blocked
(and proxies enabled, and the URL on the target domain).  When the proxy
phase exhausts, the code assigns `lastError = NetworkError('All 5 proxy
attempts failed')` before throwing, discarding any earlier, more specific
error; when the proxy phase never runs, the last direct-phase error (or a
generic `All attempts failed`) is thrown. -/
def httpGet (proxyAlways proxyEnabled : Bool) (url : String)
    (direct : Nat → FetchOutcome) (getProxy : Nat → Option Proxy)
    (tryFetch : Proxy → Option String) : Except Err String :=
  let useProxy0 := proxyAlways && isHdfilmcehennemiUrl url
  let phase1 := if useProxy0 then .blocked none else directPhase url direct
  match phase1 with
  | .success body => .ok body
  | .exhausted last => .error (last.getD (.network "All attempts failed" url none))
  | .blocked last =>
    if proxyEnabled && isHdfilmcehennemiUrl url then
      match proxyLoop getProxy tryFetch 1 5 [] with
      | some body => .ok body
      | none => .error (.network "All 5 proxy attempts failed" url none)
    else .error (last.getD (.network "All attempts failed" url none))

deriving instance DecidableEq for Except

/-- Concrete direct-attempt oracle for the C3 counterexample: the first
attempt times out (recording a `TimeoutError`), the second is blocked with a
403. -/
def dirCounter : Nat → FetchOutcome :=
  fun attempt => if attempt = 1 then .abortTimeout else .response 403 ""

/-- Concrete URL for the C3 counterexample. -/
def urlCounter : String := "https://www.hdfilmcehennemi.ws/film/"

/-- C3 counterexample: a run in which a `TimeoutError` was recorded during
the direct phase, the direct phase was then blocked by a 403, and the proxy
phase exhausted — yet the thrown error is the generic
`All 5 proxy attempts failed` `NetworkError` without status, not the more
specific `TimeoutError`: the claim's preference for the most specific error
does not hold. -/
theorem httpGet_exhaustion_counterexample :
    directPhase urlCounter dirCounter = .blocked (some (Err.timeout urlCounter 15000)) ∧
    httpGet false true urlCounter dirCounter (fun _ => none) (fun _ => none) =
      .error (.network "All 5 proxy attempts failed" urlCounter none) ∧
    Err.network "All 5 proxy attempts failed" urlCounter none ≠ Err.timeout urlCounter 15000 := by
  decide

/-- C3 (amended): when the direct phase ends blocked and the proxy phase
runs and exhausts, `httpGet` throws the generic
`NetworkError('All 5 proxy attempts failed')` without status, regardless of
any more specific error recorded earlier; the most specific (last recorded)
direct-phase error is thrown only when the proxy phase does not run, i.e. on
plain direct exhaustion. -/
theorem httpGet_exhaustion_error (url : String) (direct : Nat → FetchOutcome)
    (getProxy : Nat → Option Proxy) (tryFetch : Proxy → Option String)
    (proxyEnabled : Bool) :
    (∀ last, directPhase url direct = .blocked last →
      (proxyEnabled && isHdfilmcehennemiUrl url) = true →
      proxyLoop getProxy tryFetch 1 5 [] = none →
      httpGet false proxyEnabled url direct getProxy tryFetch =
        .error (.network "All 5 proxy attempts failed" url none))
    ∧ (∀ e, directPhase url direct = .exhausted (some e) →
      httpGet false proxyEnabled url direct getProxy tryFetch = .error e) := by
  constructor
  · intro last hblocked henabled hloop
    unfold httpGet
    simp only [Bool.false_and, if_neg (by simp : ¬ (false : Bool) = true)]
    rw [hblocked]
    simp only [if_pos henabled, hloop]
  · intro e hexh
    unfold httpGet
    simp only [Bool.false_and, if_neg (by simp : ¬ (false : Bool) = true)]
    rw [hexh]
    rfl

/-- Witness for `httpGet_exhaustion_error`: both conjuncts applied at the
concrete blocked-then-exhausted run and at a concrete plain direct
exhaustion. -/
theorem httpGet_exhaustion_error_witness :
    httpGet false true urlCounter dirCounter (fun _ => none) (fun _ => none) =
      .error (.network "All 5 proxy attempts failed" urlCounter none)
    ∧ httpGet false true "https://example.com/x" (fun _ => .abortTimeout)
        (fun _ => none) (fun _ => none) =
      .error (.timeout "https://example.com/x" 15000) :=
  ⟨(httpGet_exhaustion_error urlCounter dirCounter (fun _ => none) (fun _ => none) true).1
      (some (.timeout urlCounter 15000)) (by decide) (by decide) (by decide),
   (httpGet_exhaustion_error "https://example.com/x" (fun _ => .abortTimeout)
      (fun _ => none) (fun _ => none) true).2
      (.timeout "https://example.com/x" 15000) (by decide)⟩

/-! ## Extraction (`src/scraper.js`, `getVideoAndSubtitles`) and the
result normalizer (`toStremioStreams`)

The page fetch and the per-iframe scrape (`scrapeIframe`, whose HTML parsing
is outside the embedding) appear as oracles: `page` is the outcome of
fetching and parsing the content page, `scrape` maps an iframe URL to the
outcome of `scrapeIframe` on it.  JavaScript truthiness on nullable strings
(`null`/`undefined` and `''` are falsy) is made explicit. -/

/-- Main site base URL (`BASE_URL`). -/
def BASE_URL : String := "https://www.hdfilmcehennemi.ws"

/-- Embed host base URL (`EMBED_BASE`). -/
def EMBED_BASE : String := "https://hdfilmcehennemi.mobi"

/-- JavaScript truthiness of a nullable string: `null`/`undefined` and the
empty string are falsy. -/
def jsTruthyStr : Option String → Bool
  | none => false
  | some s => s ≠ ""

/-- Subtitle track as built by `scrapeIframe` from `<track>` elements.  The
source field `default` is spelled `isDefault` (`default` resolves to
`Inhabited.default` in Lean). -/
structure Subtitle where
  id : String
  lang : String
  label : String
  url : String
  isDefault : Bool
deriving DecidableEq, Repr

/-- Audio track parsed from the HLS manifest. -/
structure AudioTrack where
  name : String
  url : String
deriving DecidableEq, Repr

/-- Alternate embed provider descriptor collected from `.alternative-link`
elements (name, optional `data-video` id, `data-active === '1'`). -/
structure AltSource where
  name : String
  videoId : Option String
  active : Bool
deriving DecidableEq, Repr

/-- What one `scrapeIframe` call yields: the decoded (or JSON-LD) video URL
or `null`, the subtitle tracks, and the audio tracks. -/
structure ScrapeResult where
  videoUrl : Option String
  subtitles : List Subtitle
  audioTracks : List AudioTrack
deriving DecidableEq, Repr

/-- The parsed content page as `getVideoAndSubtitles` sees it: the iframe
`src`/`data-src` attribute and the alternate-source descriptors. -/
structure PageDoc where
  iframeSrc : Option String
  altSources : List AltSource
deriving DecidableEq, Repr

/-- The extraction result of `getVideoAndSubtitles`. -/
structure ExtractionResult where
  videoUrl : Option String
  subtitles : List Subtitle
  audioTracks : List AudioTrack
  source : Option String
  alternativeSources : List AltSource
  embedOrigin : String
deriving DecidableEq, Repr

/-- First match of the regex `embed\/([^\/\?]+)` over a character list: scan
for the literal `embed/`, take the following run of characters other than
`/` and `?`; an empty run fails at that position and the scan resumes one
character later, as regex backtracking does. -/
def embedIdFrom : List Char → Option (List Char)
  | [] => none
  | c :: rest =>
    if ('e' :: 'm' :: 'b' :: 'e' :: 'd' :: '/' :: []).isPrefixOf (c :: rest) then
      let tok := ((c :: rest).drop 6).takeWhile (fun ch => ch ≠ '/' ∧ ch ≠ '?')
      if tok.isEmpty then embedIdFrom rest else some tok
    else embedIdFrom rest

/-- The video id extracted in `getVideoAndSubtitles` via
`iframeSrc.match(/embed\/([^\/\?]+)/)`. -/
def extractVideoId (src : String) : Option String :=
  (embedIdFrom src.data).map (fun l => String.mk l)

/-- JavaScript `new URL(url).origin` with fallback to `BASE_URL` on a parse
failure (`getEmbedOrigin` in `getVideoAndSubtitles`): scheme and host of an
absolute http(s) URL; anything else (including relative URLs) throws in the
constructor and falls back. -/
def getEmbedOrigin (url : String) : String :=
  if "https://".data.isPrefixOf url.data then
    String.mk ("https://".data ++ ((url.data.drop 8).takeWhile
      (fun c => c ≠ '/' ∧ c ≠ '?' ∧ c ≠ '#')))
  else if "http://".data.isPrefixOf url.data then
    String.mk ("http://".data ++ ((url.data.drop 7).takeWhile
      (fun c => c ≠ '/' ∧ c ≠ '?' ∧ c ≠ '#')))
  else BASE_URL

/-- JavaScript `toLowerCase` restricted to ASCII (used on alternate-source
names such as `Rapidrame`). -/
def jsLowerAscii (s : String) : String :=
  String.mk (s.data.map (fun c =>
    if 'A' ≤ c ∧ c ≤ 'Z' then Char.ofNat (c.toNat + 32) else c))

/-- The alternate-source fallback loop of `getVideoAndSubtitles`: skip the
active source, build the alternate embed URL (the `rapidrame` provider gets
its `rapidrame_id` query parameter, interpolating the JS string `undefined`
when `data-video` is absent), scrape it, and stop at the first truthy video
URL; scrape errors move on to the next alternate. -/
def tryAlternatives (scrape : String → Except Err ScrapeResult) (videoId : String) :
    List AltSource → Option (ScrapeResult × AltSource × String)
  | [] => none
  | alt :: rest =>
    if alt.active then tryAlternatives scrape videoId rest
    else
      let altIframeSrc :=
        if jsLowerAscii alt.name = "rapidrame" then
          EMBED_BASE ++ "/video/embed/" ++ videoId ++ "/?rapidrame_id="
            ++ alt.videoId.getD "undefined"
        else EMBED_BASE ++ "/video/embed/" ++ videoId ++ "/"
      match scrape altIframeSrc with
      | .ok r =>
        if jsTruthyStr r.videoUrl then some (r, alt, altIframeSrc)
        else tryAlternatives scrape videoId rest
      | .error _ => tryAlternatives scrape videoId rest

/-- Final guard of `getVideoAndSubtitles` (`if (!result || !result.videoUrl)
throw new ScrapingError('Video URL çıkarılamadı', pageUrl)`): succeed only on
a truthy video URL, attributing `source` (the active alternate's name on a
primary success, the succeeding alternate's name otherwise) and the embed
origin of the frame actually used. -/
def finishExtraction (doc : PageDoc) (pageUrl : String) (primaryOk : Bool)
    (step : Option ScrapeResult × String × Option String) : Except Err ExtractionResult :=
  match step with
  | (some r, usedSrc, altName) =>
    if jsTruthyStr r.videoUrl then
      .ok { videoUrl := r.videoUrl
            subtitles := r.subtitles
            audioTracks := r.audioTracks
            source :=
              if primaryOk then (doc.altSources.find? (fun a => a.active)).map (fun a => a.name)
              else altName
            alternativeSources := doc.altSources
            embedOrigin := getEmbedOrigin usedSrc }
    else .error (.scraping "Video URL çıkarılamadı" pageUrl)
  | (none, _, _) => .error (.scraping "Video URL çıkarılamadı" pageUrl)

/-- The extractor `getVideoAndSubtitles`: propagate a page-fetch failure;
fail with `ScrapingError` when no iframe attribute is present; scrape the
primary frame (errors caught); if it yields no truthy video URL, run the
alternate-source fallback; finally apply the `finishExtraction` guard. -/
def getVideoAndSubtitles (scrape : String → Except Err ScrapeResult)
    (page : Except Err PageDoc) (pageUrl : String) : Except Err ExtractionResult :=
  match page with
  | .error e => .error e
  | .ok doc =>
    match doc.iframeSrc with
    | none => .error (.scraping "Sayfa üzerinde video oynatıcı bulunamadı" pageUrl)
    | some src =>
      if src = "" then .error (.scraping "Sayfa üzerinde video oynatıcı bulunamadı" pageUrl)
      else
        let primary : Option ScrapeResult :=
          match scrape src with
          | .ok r => some r
          | .error _ => none
        let primaryOk :=
          match primary with
          | some r => jsTruthyStr r.videoUrl
          | none => false
        let step :=
          if primaryOk then (primary, src, none)
          else
            match extractVideoId src with
            | none => (primary, src, none)
            | some vid =>
              match tryAlternatives scrape vid doc.altSources with
              | some (r, alt, altSrc) => (some r, altSrc, some alt.name)
              | none => (primary, src, none)
        finishExtraction doc pageUrl primaryOk step

/-- A truthy nullable string is `some` of something. -/
theorem jsTruthyStr_some (o : Option String) (h : jsTruthyStr o = true) :
    ∃ v, o = some v := by
  cases o with
  | none => simp [jsTruthyStr] at h
  | some v => exact ⟨v, rfl⟩

/-- The final guard yields `ok` only with a present video URL. -/
theorem finishExtraction_ok (doc : PageDoc) (pageUrl : String) (primaryOk : Bool)
    (step : Option ScrapeResult × String × Option String) (r : ExtractionResult)
    (h : finishExtraction doc pageUrl primaryOk step = .ok r) :
    ∃ v, r.videoUrl = some v := by
  obtain ⟨o, usedSrc, altName⟩ := step
  cases o with
  | none => simp [finishExtraction] at h
  | some rr =>
    simp only [finishExtraction] at h
    split at h
    · rename_i htruthy
      obtain ⟨v, hv⟩ := jsTruthyStr_some rr.videoUrl htruthy
      simp only [Except.ok.injEq] at h
      subst h
      exact ⟨v, hv⟩
    · exact absurd h (by simp)

/-- The final guard only fails with a `ScrapingError` on the page URL. -/
theorem finishExtraction_error (doc : PageDoc) (pageUrl : String) (primaryOk : Bool)
    (step : Option ScrapeResult × String × Option String) (e : Err)
    (h : finishExtraction doc pageUrl primaryOk step = .error e) :
    ∃ msg, e = .scraping msg pageUrl := by
  obtain ⟨o, usedSrc, altName⟩ := step
  cases o with
  | none =>
    simp only [finishExtraction, Except.error.injEq] at h
    exact ⟨_, h.symm⟩
  | some rr =>
    simp only [finishExtraction] at h
    split at h
    · exact absurd h (by simp)
    · simp only [Except.error.injEq] at h
      exact ⟨_, h.symm⟩

/-- C2: `getVideoAndSubtitles` never returns as success a result without a
video URL — every `ok` result carries `videoUrl = some v` — and once the
content page itself was fetched, every failure (after the primary frame and
the non-active alternates have been tried) is a `ScrapingError` on the page
URL. -/
theorem getVideoAndSubtitles_usable :
    (∀ (scrape : String → Except Err ScrapeResult) (page : Except Err PageDoc)
        (pageUrl : String) (r : ExtractionResult),
      getVideoAndSubtitles scrape page pageUrl = .ok r →
      ∃ v, r.videoUrl = some v)
    ∧ (∀ (scrape : String → Except Err ScrapeResult) (doc : PageDoc)
        (pageUrl : String) (e : Err),
      getVideoAndSubtitles scrape (.ok doc) pageUrl = .error e →
      ∃ msg, e = .scraping msg pageUrl) := by
  constructor
  · intro scrape page pageUrl r h
    cases page with
    | error e => simp [getVideoAndSubtitles] at h
    | ok doc =>
      rcases hsrc : doc.iframeSrc with _ | src
      · simp only [getVideoAndSubtitles, hsrc] at h
        exact absurd h (by simp)
      · simp only [getVideoAndSubtitles, hsrc] at h
        split at h
        · exact absurd h (by simp)
        · exact finishExtraction_ok _ _ _ _ r h
  · intro scrape doc pageUrl e h
    rcases hsrc : doc.iframeSrc with _ | src
    · simp only [getVideoAndSubtitles, hsrc, Except.error.injEq] at h
      exact ⟨_, h.symm⟩
    · simp only [getVideoAndSubtitles, hsrc] at h
      split at h
      · simp only [Except.error.injEq] at h
        exact ⟨_, h.symm⟩
      · exact finishExtraction_error _ _ _ _ e h

/-- Witness for `getVideoAndSubtitles_usable`: a concrete page whose primary
frame scrapes to a video URL yields an `ok` result with a present
`videoUrl`, and a concrete page without an iframe fails with a
`ScrapingError` on the page URL. -/
theorem getVideoAndSubtitles_usable_witness :
    (∃ v, (ExtractionResult.mk (some "https://cdn/video.m3u8") [] [] none []
        "https://hdfilmcehennemi.mobi").videoUrl = some v)
    ∧ (∃ msg, Err.scraping "Sayfa üzerinde video oynatıcı bulunamadı" "page" =
        Err.scraping msg "page") :=
  ⟨getVideoAndSubtitles_usable.1
      (fun _ => .ok (ScrapeResult.mk (some "https://cdn/video.m3u8") [] []))
      (.ok (PageDoc.mk (some "https://hdfilmcehennemi.mobi/video/embed/abc/") []))
      "page" _ (by decide),
   getVideoAndSubtitles_usable.2
      (fun _ => .ok (ScrapeResult.mk none [] []))
      (PageDoc.mk none []) "page" _ (by decide)⟩

/-- Base64 character code for a sextet value (standard alphabet with `+`
and `/`), used by the encoder. -/
def b64Char (n : Nat) : Nat :=
  if n < 26 then 65 + n
  else if n < 52 then 97 + (n - 26)
  else if n < 62 then 48 + (n - 52)
  else if n = 62 then 43
  else 47

/-- Standard base64 encoding of a byte list with `=` padding (code 61), as
`Buffer.from(str).toString('base64')` produces. -/
def b64EncodeBytes : List Nat → List Nat
  | a :: b :: c :: rest =>
      b64Char (a / 4) :: b64Char ((a % 4) * 16 + b / 16)
        :: b64Char ((b % 16) * 4 + c / 64) :: b64Char (c % 64) :: b64EncodeBytes rest
  | [a, b] => [b64Char (a / 4), b64Char ((a % 4) * 16 + b / 16), b64Char ((b % 16) * 4), 61]
  | [a] => [b64Char (a / 4), b64Char ((a % 4) * 16), 61, 61]
  | [] => []

/-- Model of `Buffer.from(s).toString('base64')`: UTF-8 encode, then base64. -/
def b64EncodeStr (s : String) : String :=
  String.mk ((b64EncodeBytes (s.toUTF8.toList.map (fun b => b.toNat))).map Char.ofNat)

/-- Subtitle entry of the Stremio stream response (projection of a scraped
`Subtitle` without its default flag). -/
structure StremioSub where
  id : String
  url : String
  lang : String
  label : String
deriving DecidableEq, Repr

/-- One Stremio stream entry: the (possibly relay-wrapped) URL, titles, the
`notWebReady` hint and the `proxyHeaders` Referer/Origin pair, plus the
subtitle list. -/
structure StremioStream where
  url : String
  title : String
  name : String
  notWebReady : Bool
  refererHeader : String
  originHeader : String
  subtitles : List StremioSub
deriving DecidableEq, Repr

/-- The protocol response `{ streams: [...] }`. -/
structure StreamResponse where
  streams : List StremioStream
deriving DecidableEq, Repr

/-- The result normalizer `toStremioStreams` of `src/scraper.js`: an absent
result or a falsy `videoUrl` yields `{ streams: [] }` (the function is total,
so it can never throw); otherwise one stream entry is produced, with the
Referer/Origin derived from the result's embed origin (falling back to
`EMBED_BASE` when falsy) and, when a relay base URL is supplied, the media
URL rewritten through `/proxy/m3u8` with base64-encoded `url` and `ref`
query parameters. -/
def toStremioStreams (result : Option ExtractionResult) (title : String)
    (baseUrl : Option String) : StreamResponse :=
  match result with
  | none => { streams := [] }
  | some r =>
    if ¬ jsTruthyStr r.videoUrl then { streams := [] }
    else
      let videoUrl := r.videoUrl.getD ""
      let embedOrigin := if r.embedOrigin = "" then EMBED_BASE else r.embedOrigin
      let referer := embedOrigin ++ "/"
      let streamUrl :=
        if jsTruthyStr baseUrl then
          baseUrl.getD "" ++ "/proxy/m3u8?url=" ++ b64EncodeStr videoUrl
            ++ "&ref=" ++ b64EncodeStr referer
        else videoUrl
      { streams := [{ url := streamUrl
                      title := title
                      name := "HDFilmCehennemi"
                      notWebReady := true
                      refererHeader := referer
                      originHeader := embedOrigin
                      subtitles := r.subtitles.map (fun s =>
                        { id := s.id, url := s.url, lang := s.lang, label := s.label }) }] }

/-- C7: for a `null` result, and for every result whose `videoUrl` is absent,
`toStremioStreams` returns a response with an empty stream list; being a
total function, it never throws. -/
theorem toStremioStreams_empty_without_video (result : Option ExtractionResult)
    (title : String) (baseUrl : Option String)
    (h : result = none ∨ ∃ r, result = some r ∧ r.videoUrl = none) :
    toStremioStreams result title baseUrl = { streams := [] } := by
  rcases h with h | ⟨r, hr, hv⟩
  · rw [h]; rfl
  · rw [hr]
    simp only [toStremioStreams, hv]
    rw [if_pos]
    simp [jsTruthyStr]

/-- Witness for `toStremioStreams_empty_without_video`: both the `null`
result and a concrete result carrying subtitle tracks but no video URL map
to the empty stream list. -/
theorem toStremioStreams_empty_without_video_witness :
    toStremioStreams none "t" none = { streams := [] }
    ∧ toStremioStreams
        (some (ExtractionResult.mk none [Subtitle.mk "s1" "tr" "Türkçe" "u" true] []
          none [] "")) "t" none = { streams := [] } :=
  ⟨toStremioStreams_empty_without_video none "t" none (Or.inl rfl),
   toStremioStreams_empty_without_video _ "t" none
     (Or.inr ⟨_, rfl, rfl⟩)⟩

/-! ## Content matcher (`src/search.js`)

Identifier validation, title normalization, similarity scoring and the
best-match selection are pure and embedded directly; the search, metadata
and episode-page fetches of `findContent` become an oracle record, and each
performed network request is logged into an explicit trace list so that
`validation precedes I/O` is expressible. -/

/-- The validator `isValidImdbId`, the translation of
`/^tt\d\x7b7,8\x7d$/.test(imdbId)`: the string is `tt` followed by exactly 7
or 8 digits. -/
def isValidImdbId (imdbId : String) : Bool :=
  match imdbId.data with
  | c1 :: c2 :: rest =>
      c1 == 't' && c2 == 't' && rest.all (fun c => c.isDigit)
        && (rest.length == 7 || rest.length == 8)
  | _ => false

/-- Modelled from the spec: the IMDb id pattern in words — prefix `tt`
followed by exactly 7 or 8 digits. -/
def imdbIdPattern (s : String) : Prop :=
  ∃ ds : List Char, s.data = 't' :: 't' :: ds
    ∧ (∀ c ∈ ds, c.isDigit = true) ∧ (ds.length = 7 ∨ ds.length = 8)

/-- C8: `isValidImdbId` accepts exactly the strings matching the id pattern
(prefix `tt` plus 7 or 8 digits), and in particular the four spec examples
evaluate as stated. -/
theorem isValidImdbId_pattern :
    (∀ s : String, isValidImdbId s = true ↔ imdbIdPattern s)
    ∧ isValidImdbId "tt0499549" = true
    ∧ isValidImdbId "tt12345678" = true
    ∧ isValidImdbId "invalid" = false
    ∧ isValidImdbId "tt123" = false := by
  refine ⟨?_, by decide, by decide, by decide, by decide⟩
  intro s
  constructor
  · intro h
    rcases hd : s.data with _ | ⟨c1, _ | ⟨c2, rest⟩⟩
    · simp only [isValidImdbId, hd] at h
      exact absurd h (by simp)
    · simp only [isValidImdbId, hd] at h
      exact absurd h (by simp)
    · simp only [isValidImdbId, hd, Bool.and_eq_true, beq_iff_eq, List.all_eq_true,
        Bool.or_eq_true, beq_iff_eq] at h
      obtain ⟨⟨⟨hc1, hc2⟩, hall⟩, hlen⟩ := h
      subst hc1
      subst hc2
      exact ⟨rest, hd, hall, by omega⟩
  · rintro ⟨ds, hdata, hdig, hlen⟩
    simp only [isValidImdbId, hdata, Bool.and_eq_true, Bool.or_eq_true]
    refine ⟨⟨⟨by decide, by decide⟩, List.all_eq_true.mpr hdig⟩, ?_⟩
    rcases hlen with h | h <;> simp [h]

/-- Whitespace class of the regex `\s` as used by `normalizeTitle` (space,
tab, line and page breaks, NBSP). -/
def isSpaceJS (c : Char) : Bool :=
  c = ' ' ∨ c = Char.ofNat 9 ∨ c = Char.ofNat 10 ∨ c = Char.ofNat 11
    ∨ c = Char.ofNat 12 ∨ c = Char.ofNat 13 ∨ c = Char.ofNat 160

/-- JavaScript `toLowerCase` on the character sets this module manipulates:
ASCII letters and the Turkish uppercase letters appearing on the site
(`Ç Ğ İ Ö Ş Ü`); dotted capital İ lowercases to `i` plus a combining dot, as
in JS. -/
def lowerCharJS (c : Char) : List Char :=
  if 'A' ≤ c ∧ c ≤ 'Z' then [Char.ofNat (c.toNat + 32)]
  else if c.toNat = 0xC7 then [Char.ofNat 0xE7]
  else if c.toNat = 0x11E then [Char.ofNat 0x11F]
  else if c.toNat = 0x130 then [Char.ofNat 0x69, Char.ofNat 0x307]
  else if c.toNat = 0xD6 then [Char.ofNat 0xF6]
  else if c.toNat = 0x15E then [Char.ofNat 0x15F]
  else if c.toNat = 0xDC then [Char.ofNat 0xFC]
  else [c]

/-- Quote unification of `normalizeTitle`: curly single quotes and the
backquote map to the apostrophe (code 39), curly double quotes to the
straight double quote (code 34). -/
def quoteNorm (c : Char) : Char :=
  if c.toNat = 0x2018 ∨ c.toNat = 0x2019 ∨ c.toNat = 0x60 then Char.ofNat 39
  else if c.toNat = 0x201C ∨ c.toNat = 0x201D then Char.ofNat 34
  else c

/-- Punctuation collapse of `normalizeTitle`: colon, hyphen, en dash and em
dash become a space. -/
def dashNorm (c : Char) : Char :=
  if c = ':' ∨ c = '-' ∨ c.toNat = 0x2013 ∨ c.toNat = 0x2014 then ' ' else c

/-- Whitespace-run collapse, the `replace(\s+, ' ')` step. -/
def squeezeSpaces : List Char → List Char
  | [] => []
  | [c] => if isSpaceJS c then [' '] else [c]
  | c :: d :: rest =>
    if isSpaceJS c && isSpaceJS d then squeezeSpaces (d :: rest)
    else (if isSpaceJS c then ' ' else c) :: squeezeSpaces (d :: rest)

/-- JavaScript `trim`: strip whitespace from both ends. -/
def trimSpaces (l : List Char) : List Char :=
  ((l.dropWhile isSpaceJS).reverse.dropWhile isSpaceJS).reverse

/-- The title normalizer `normalizeTitle`: lowercase, unify quotes, collapse
punctuation to spaces, collapse whitespace runs, trim. -/
def normalizeTitleL (l : List Char) : List Char :=
  trimSpaces (squeezeSpaces (((l.map lowerCharJS).flatten.map quoteNorm).map dashNorm))

/-- The transliteration `turkishToAscii`: map the twelve Turkish letters to
their ASCII counterparts. -/
def turkishToAsciiL (l : List Char) : List Char :=
  l.map (fun c =>
    if c.toNat = 0xE7 then 'c' else if c.toNat = 0xC7 then 'C'
    else if c.toNat = 0x11F then 'g' else if c.toNat = 0x11E then 'G'
    else if c.toNat = 0x131 then 'i' else if c.toNat = 0x130 then 'I'
    else if c.toNat = 0xF6 then 'o' else if c.toNat = 0xD6 then 'O'
    else if c.toNat = 0x15F then 's' else if c.toNat = 0x15E then 'S'
    else if c.toNat = 0xFC then 'u' else if c.toNat = 0xDC then 'U'
    else c)

/-- JavaScript `split(' ')` keeping empty fields (`""` splits to `[""]`). -/
def splitSp : List Char → List (List Char)
  | [] => [[]]
  | c :: rest =>
    match splitSp rest with
    | [] => if c = ' ' then [[], []] else [[c]]
    | w :: ws => if c = ' ' then [] :: w :: ws else (c :: w) :: ws

/-- The word-overlap count of `calculateSimilarity`: a word of the first
list matches when some word of the second contains it or is contained in
it. -/
def wordMatches (words1 words2 : List (List Char)) : Nat :=
  (words1.filter (fun w1 =>
    words2.any (fun w2 => listIncludes w2 w1 || listIncludes w1 w2))).length

/-- The similarity scorer `calculateSimilarity` (scores in ℚ; the JS floats
carry the same arithmetic): 1 on equal normalized titles, otherwise the
word-overlap count over the longer word list (words of length > 1 only). -/
def calculateSimilarity (str1 str2 : String) : ℚ :=
  let s1 := normalizeTitleL str1.data
  let s2 := normalizeTitleL str2.data
  if s1 = s2 then 1
  else
    let words1 := (splitSp s1).filter (fun w => 1 < w.length)
    let words2 := (splitSp s2).filter (fun w => 1 < w.length)
    let matchCount := wordMatches words1 words2
    let maxLen := max words1.length words2.length
    if 0 < maxLen then (matchCount : ℚ) / (maxLen : ℚ) else 0

/-- A parsed search result of `searchOnSite` (`type` is spelled `rtype`). -/
structure SearchResult where
  url : String
  title : String
  year : Option Int
  rtype : String
  slug : String
deriving DecidableEq, Repr

/-- Per-candidate total score of `findBestMatch`: similarity plus the year
bonus (+0.3 exact, +0.1 within a year, gated on both years being truthy) plus
the slug bonus (+0.2 when the transliterated, normalized slug contains the
first word of the normalized target title). -/
def scoreOf (result : SearchResult) (targetTitle : String) (targetYear : Option Int) : ℚ :=
  let base := calculateSimilarity result.title targetTitle
  let withYear :=
    match targetYear, result.year with
    | some ty, some ry =>
      if ty ≠ 0 ∧ ry ≠ 0 then
        if ry = ty then base + 3/10
        else if (ry - ty).natAbs ≤ 1 then base + 1/10
        else base
      else base
    | _, _ => base
  let slugNorm := normalizeTitleL (turkishToAsciiL result.slug.data)
  let titleNorm := normalizeTitleL (turkishToAsciiL targetTitle.data)
  let firstWord := (splitSp titleNorm).headD []
  if listIncludes slugNorm firstWord then withYear + 2/10 else withYear

/-- One step of `findBestMatch`'s loop: keep the strictly better candidate. -/
def bestStep (targetTitle : String) (targetYear : Option Int)
    (acc : Option SearchResult × ℚ) (result : SearchResult) : Option SearchResult × ℚ :=
  let score := scoreOf result targetTitle targetYear
  if acc.2 < score then (some result, score) else acc

/-- The selector `findBestMatch`: fold over the results keeping the best
strict improvement, then apply the 0.4 minimum threshold. -/
def findBestMatch (results : List SearchResult) (targetTitle : String)
    (targetYear : Option Int) : Option SearchResult :=
  if results.isEmpty then none
  else
    let best := results.foldl (bestStep targetTitle targetYear) (none, 0)
    if 2/5 ≤ best.2 then best.1 else none

/-- Fold invariant of `findBestMatch`: whenever the accumulator holds a
candidate, its score is the accumulated best score. -/
theorem bestFold_inv (t : String) (y : Option Int) :
    ∀ (rs : List SearchResult) (acc : Option SearchResult × ℚ),
      (∀ m, acc.1 = some m → acc.2 = scoreOf m t y) →
      ∀ m, (rs.foldl (bestStep t y) acc).1 = some m →
        (rs.foldl (bestStep t y) acc).2 = scoreOf m t y := by
  intro rs
  induction rs with
  | nil => intro acc hacc m hm; exact hacc m hm
  | cons r rest ih =>
    intro acc hacc m hm
    rw [List.foldl_cons] at hm ⊢
    refine ih (bestStep t y acc r) ?_ m hm
    intro m' hm'
    by_cases hlt : acc.2 < scoreOf r t y
    · simp only [bestStep, if_pos hlt] at hm' ⊢
      obtain rfl := Option.some.inj hm'
      rfl
    · simp only [bestStep, if_neg hlt] at hm' ⊢
      exact hacc m' hm'

/-- C9: two titles with equal normalized forms score exactly 1, and
`findBestMatch` returns a candidate only when that candidate's total score
reaches the 0.4 threshold (returning `none` otherwise). -/
theorem similarity_exact_and_threshold :
    (∀ a b : String, normalizeTitleL a.data = normalizeTitleL b.data →
      calculateSimilarity a b = 1)
    ∧ (∀ (results : List SearchResult) (t : String) (y : Option Int) (m : SearchResult),
      findBestMatch results t y = some m → 2/5 ≤ scoreOf m t y) := by
  constructor
  · intro a b h
    unfold calculateSimilarity
    rw [if_pos h]
  · intro results t y m hm
    unfold findBestMatch at hm
    split at hm
    · exact absurd hm (by simp)
    · dsimp only at hm
      split at hm
      · rename_i hthr
        have hinv := bestFold_inv t y results (none, 0) (by intro m' h'; simp at h') m hm
        rw [hinv] at hthr
        exact hthr
      · exact absurd hm (by simp)

/-- Concrete search result for the C9 witness. -/
def sampleResult : SearchResult :=
  SearchResult.mk "https://www.hdfilmcehennemi.ws/avatar" "Avatar" (some 2009)
    "movie" "avatar"

/-- The sample candidate scores similarity 1 against its own title. -/
theorem sampleSimilarity : calculateSimilarity "Avatar" "Avatar" = 1 := by
  simp [calculateSimilarity]

/-- Total score of the sample candidate: similarity 1, exact-year bonus, slug
bonus. -/
theorem sampleScore : scoreOf sampleResult "Avatar" (some 2009) = 1 + 3/10 + 2/10 := by
  have hslug : listIncludes
      (normalizeTitleL (turkishToAsciiL (['a', 'v', 'a', 't', 'a', 'r'] : List Char)))
      ((splitSp (normalizeTitleL
        (turkishToAsciiL (['A', 'v', 'a', 't', 'a', 'r'] : List Char)))).head?.getD []) = true := by
    decide
  simp [scoreOf, sampleResult, sampleSimilarity, hslug]

/-- The single sample candidate is selected by `findBestMatch`. -/
theorem sampleSelected :
    findBestMatch [sampleResult] "Avatar" (some 2009) = some sampleResult := by
  unfold findBestMatch
  rw [if_neg (by decide : ¬ (([sampleResult] : List SearchResult).isEmpty = true))]
  simp only [List.foldl, bestStep, sampleScore]
  rw [if_pos (by norm_num : (0 : ℚ) < 1 + 3/10 + 2/10)]
  rw [if_pos (by norm_num : (2 : ℚ)/5 ≤ 1 + 3/10 + 2/10)]

/-- Witness for `similarity_exact_and_threshold`: a title scores 1 against
itself, and a concrete single-candidate selection clears the threshold. -/
theorem similarity_exact_and_threshold_witness :
    calculateSimilarity "Avatar" "Avatar" = 1
    ∧ (2 : ℚ)/5 ≤ scoreOf sampleResult "Avatar" (some 2009) :=
  ⟨similarity_exact_and_threshold.1 "Avatar" "Avatar" rfl,
   similarity_exact_and_threshold.2 [sampleResult] "Avatar" (some 2009) sampleResult
     sampleSelected⟩

/-! ## Identifier resolution (`src/search.js`, `findContent`)

The fetch-and-parse outcome of each external request becomes an oracle field
of `SearchEnv`; every performed network request appends a marker to a trace
list, so `validation precedes I/O` is a statement about the trace.  The
30-minute module cache appears as the `cache` lookup of the environment
(write-backs are dropped: within one resolution they can only short-circuit
a repeated identical request against a deterministic environment). -/

/-- Cinemeta metadata (`data.meta`): `name`, optional `originalTitle`,
optional `year`. -/
structure Meta where
  name : String
  originalTitle : Option String
  year : Option Int
deriving DecidableEq, Repr

/-- One episode link parsed from a series page. -/
structure EpisodeRef where
  url : String
  season : Int
  episode : Int
deriving DecidableEq, Repr

/-- The resolved content match returned by `findContent`. -/
structure ContentMatch where
  url : String
  title : String
  seriesTitle : Option String
deriving DecidableEq, Repr

/-- Oracles for `findContent`'s external requests: the query cache, the
site-search outcome per query, the Cinemeta outcome for this `(type, id)`
call (`ok none` models a response without a `meta` field), and the
episode-page outcome per series URL. -/
structure SearchEnv where
  cache : String → Option (List SearchResult)
  search : String → Except Err (List SearchResult)
  meta : Except Err (Option Meta)
  episodes : String → Except Err (List EpisodeRef)

/-- The site search `searchOnSite`: serve from cache without a request;
otherwise one request whose transport, HTTP, JSON-parse or scraping failure
is caught and turned into the empty result list.  The second component is
the trace of performed network requests. -/
def searchOnSite (env : SearchEnv) (query : String) : List SearchResult × List String :=
  match env.cache query with
  | some rs => (rs, [])
  | none =>
    match env.search query with
    | .ok rs => (rs, ["search:" ++ query])
    | .error _ => ([], ["search:" ++ query])

/-- The metadata lookup `getMetaFromCinemeta`: one request, every failure
caught and turned into `none`. -/
def getMetaFromCinemeta (env : SearchEnv) : Option Meta × List String :=
  match env.meta with
  | .ok m => (m, ["meta"])
  | .error _ => (none, ["meta"])

/-- The episode resolver `findEpisodeUrl`: fetch-and-parse the series page
(failures caught into `none`), then select the exact `(season, episode)`
match. -/
def findEpisodeUrl (env : SearchEnv) (seriesUrl : String) (season episode : Int) :
    Option String × List String :=
  match env.episodes seriesUrl with
  | .error _ => (none, ["episodes:" ++ seriesUrl])
  | .ok eps =>
    match eps.find? (fun ep => ep.season == season && ep.episode == episode) with
    | some ep => (some ep.url, ["episodes:" ++ seriesUrl])
    | none => (none, ["episodes:" ++ seriesUrl])

/-- JavaScript truthiness of a nullable number (`null`/`undefined` and 0 are
falsy). -/
def jsTruthyInt : Option Int → Bool
  | none => false
  | some n => n != 0

/-- The bounds check `isValidEpisodeNumber` on an already numeric value:
a positive integer below 1000. -/
def isValidEpisodeNumber (n : Int) : Bool := 0 < n && n < 1000

/-- Separator class of the first-word split
(`title.split(/[\s:\-–—]+/)[0]`). -/
def isTitleSep (c : Char) : Bool :=
  isSpaceJS c || c = ':' || c = '-' || c.toNat = 0x2013 || c.toNat = 0x2014

/-- First word of a title: the prefix before the first separator (empty when
the title starts with one, as `split()[0]` is). -/
def firstWordOf (s : String) : String :=
  String.mk (s.data.takeWhile (fun c => !(isTitleSep c)))

/-- The title-search query list of `findContent`: the title, the original
title when truthy and different, and the first word when at least 4
characters. -/
def buildQueries (title : String) (origTitle : Option String) : List String :=
  [title]
    ++ (match origTitle with
        | some ot => if ot ≠ "" ∧ ot ≠ title then [ot] else []
        | none => [])
    ++ (let fw := firstWordOf title
        if fw ≠ "" ∧ 4 ≤ fw.length then [fw] else [])

/-- The title-search loop of `findContent`: for each query until a match is
found, search the site, select with `findBestMatch` against the title, then
against the truthy original title. -/
def titleSearchLoop (env : SearchEnv) (title : String) (origTitle : Option String)
    (year : Option Int) : List String → Option SearchResult × List String
  | [] => (none, [])
  | q :: qs =>
    let sr := searchOnSite env q
    let m :=
      if sr.1.isEmpty then none
      else
        match findBestMatch sr.1 title year with
        | some mm => some mm
        | none =>
          match origTitle with
          | some ot => if ot ≠ "" then findBestMatch sr.1 ot year else none
          | none => none
    match m with
    | some mm => (some mm, sr.2)
    | none =>
      let rest := titleSearchLoop env title origTitle year qs
      (rest.1, sr.2 ++ rest.2)

/-- Step 3 of `findContent`: for a series request with truthy season and
episode, resolve the episode URL (failing with `ContentNotFoundError`);
otherwise return the match. -/
def finishMatch (env : SearchEnv) (rtype : String) (season episode : Option Int)
    (m : SearchResult) : Except Err ContentMatch × List String :=
  if rtype = "series" ∧ jsTruthyInt season = true ∧ jsTruthyInt episode = true then
    let se := season.getD 0
    let epn := episode.getD 0
    let ep := findEpisodeUrl env m.url se epn
    let label := m.title ++ " S" ++ toString se ++ "E" ++ toString epn
    match ep.1 with
    | none => (.error (.notFound label), ep.2)
    | some u => (.ok (ContentMatch.mk u label (some m.title)), ep.2)
  else (.ok (ContentMatch.mk m.url m.title none), [])

/-- The input-validation prefix of `findContent` (lines 514-534 of
`src/search.js`), run before anything else: required id, id format, type in
{movie, series}, season/episode bounds for truthy values. -/
def validateFindContent (rtype imdbId : String) (season episode : Option Int) :
    Option Err :=
  if imdbId = "" then some (.validation "IMDb ID gerekli" "imdbId")
  else if ¬ isValidImdbId imdbId then
    some (.validation "Geçersiz IMDb ID formatı (örnek: tt1234567)" "imdbId")
  else if rtype ≠ "movie" ∧ rtype ≠ "series" then
    some (.validation "Tür movie veya series olmalı" "type")
  else if rtype = "series" ∧ jsTruthyInt season = true
      ∧ isValidEpisodeNumber (season.getD 0) = false then
    some (.validation "Geçersiz sezon numarası" "season")
  else if rtype = "series" ∧ jsTruthyInt episode = true
      ∧ isValidEpisodeNumber (episode.getD 0) = false then
    some (.validation "Geçersiz bölüm numarası" "episode")
  else none

/-- The resolution body of `findContent` after validation: search by the id
first and trust the first result; otherwise fetch metadata (a missing or
falsy-named meta is `ContentNotFoundError`), run the title-search loop, and
fail with `ContentNotFoundError` when nothing matches. -/
def findContentMain (env : SearchEnv) (rtype : String) (imdbId : String)
    (season episode : Option Int) : Except Err ContentMatch × List String :=
  let sr := searchOnSite env imdbId
  match sr.1 with
  | m :: _ =>
    let fin := finishMatch env rtype season episode
      (SearchResult.mk m.url m.title m.year m.rtype m.slug)
    (fin.1, sr.2 ++ fin.2)
  | [] =>
    let mt := getMetaFromCinemeta env
    match mt.1 with
    | none => (.error (.notFound imdbId), sr.2 ++ mt.2)
    | some meta =>
      if meta.name = "" then (.error (.notFound imdbId), sr.2 ++ mt.2)
      else
        let year := if jsTruthyInt meta.year then meta.year else none
        let queries := buildQueries meta.name meta.originalTitle
        let ts := titleSearchLoop env meta.name meta.originalTitle year queries
        match ts.1 with
        | none => (.error (.notFound imdbId), sr.2 ++ mt.2 ++ ts.2)
        | some m =>
          let fin := finishMatch env rtype season episode m
          (fin.1, sr.2 ++ mt.2 ++ ts.2 ++ fin.2)

/-- The matcher `findContent`: validate the inputs, then resolve; the trace
(second component) lists every network request performed. -/
def findContent (env : SearchEnv) (rtype : String) (imdbId : String)
    (season episode : Option Int) : Except Err ContentMatch × List String :=
  match validateFindContent rtype imdbId season episode with
  | some e => (.error e, [])
  | none => findContentMain env rtype imdbId season episode

/-- The episode-resolution step never produces a `ValidationError`. -/
theorem finishMatch_no_validation (env : SearchEnv) (rtype : String)
    (season episode : Option Int) (m : SearchResult) (msg fld : String) :
    (finishMatch env rtype season episode m).1 ≠ .error (.validation msg fld) := by
  unfold finishMatch
  split
  · dsimp only
    split
    · simp
    · simp
  · simp

/-- The resolution body never produces a `ValidationError`: its own failures
are `ContentNotFoundError`s and all oracle failures are caught. -/
theorem findContentMain_no_validation (env : SearchEnv) (rtype : String)
    (imdbId : String) (season episode : Option Int) (msg fld : String) :
    (findContentMain env rtype imdbId season episode).1 ≠ .error (.validation msg fld) := by
  intro h
  simp only [findContentMain] at h
  split at h
  · exact finishMatch_no_validation env rtype season episode _ msg fld h
  · split at h
    · simp at h
    · split at h
      · simp at h
      · split at h
        · simp at h
        · exact finishMatch_no_validation env rtype season episode _ msg fld h

/-- On an invalid identifier the validator rejects with some
`ValidationError`. -/
theorem validateFindContent_invalid (rtype imdbId : String)
    (season episode : Option Int) (h : isValidImdbId imdbId = false) :
    ∃ msg fld, validateFindContent rtype imdbId season episode =
      some (.validation msg fld) := by
  unfold validateFindContent
  by_cases he : imdbId = ""
  · rw [if_pos he]
    exact ⟨_, _, rfl⟩
  · rw [if_neg he, if_pos (by simp [h])]
    exact ⟨_, _, rfl⟩

/-- C6: for every input whose identifier fails the IMDb pattern,
`findContent` rejects with a `ValidationError` and its network trace is
empty; more generally every `ValidationError` outcome of `findContent`
comes with an empty trace — validation happens strictly before the first
fetch. -/
theorem findContent_validation_before_network :
    (∀ (env : SearchEnv) (rtype imdbId : String) (season episode : Option Int),
      isValidImdbId imdbId = false →
      (findContent env rtype imdbId season episode).2 = []
        ∧ ∃ msg fld, (findContent env rtype imdbId season episode).1 =
            .error (.validation msg fld))
    ∧ (∀ (env : SearchEnv) (rtype imdbId : String) (season episode : Option Int)
        (msg fld : String),
      (findContent env rtype imdbId season episode).1 = .error (.validation msg fld) →
      (findContent env rtype imdbId season episode).2 = []) := by
  constructor
  · intro env rtype imdbId season episode h
    obtain ⟨msg, fld, hv⟩ := validateFindContent_invalid rtype imdbId season episode h
    unfold findContent
    rw [hv]
    exact ⟨rfl, msg, fld, rfl⟩
  · intro env rtype imdbId season episode msg fld h
    unfold findContent at h ⊢
    split at h
    next e heq => rfl
    next heq =>
      exact absurd h (findContentMain_no_validation env rtype imdbId season episode msg fld)

/-- All-failing environment: empty cache and every request failing at the
transport layer. -/
def envFail : SearchEnv :=
  SearchEnv.mk (fun _ => none)
    (fun q => .error (.network "fetch failed" q none))
    (.error (.network "fetch failed" "meta" none))
    (fun u => .error (.network "fetch failed" u none))

/-- Witness for `findContent_validation_before_network`: the spec's concrete
call `findContent('movie', 'not-an-id')` rejects with an empty trace. -/
theorem findContent_validation_before_network_witness :
    (findContent envFail "movie" "not-an-id" none none).2 = []
    ∧ ∃ msg fld, (findContent envFail "movie" "not-an-id" none none).1 =
        .error (.validation msg fld) :=
  findContent_validation_before_network.1 envFail "movie" "not-an-id" none none
    (by decide)

/-- C10: `searchOnSite` turns every request failure into the empty result
list (it is total, so it never throws), making a network failure
indistinguishable from no results; consequently `findContent` on a valid
identifier over an environment whose every request fails reports
`ContentNotFoundError` for that identifier rather than propagating the
underlying `NetworkError`/`TimeoutError`. -/
theorem searchOnSite_swallows_errors :
    (∀ (env : SearchEnv) (q : String) (e : Err),
      env.cache q = none → env.search q = .error e →
      (searchOnSite env q).1 = [])
    ∧ (∀ (sErr : String → Err) (mErr : Err) (eErr : String → Err),
      (findContent
          (SearchEnv.mk (fun _ => none) (fun q => .error (sErr q)) (.error mErr)
            (fun u => .error (eErr u)))
          "movie" "tt0499549" none none).1 = .error (.notFound "tt0499549")) := by
  constructor
  · intro env q e hc hs
    unfold searchOnSite
    rw [hc, hs]
  · intro sErr mErr eErr
    rfl

/-- Witness for `searchOnSite_swallows_errors`: the all-failing environment
yields an empty search result and a `ContentNotFoundError` resolution. -/
theorem searchOnSite_swallows_errors_witness :
    (searchOnSite envFail "tt0499549").1 = []
    ∧ (findContent
        (SearchEnv.mk (fun _ => none)
          (fun q => .error (Err.network "fetch failed" q none))
          (.error (Err.network "fetch failed" "meta" none))
          (fun u => .error (Err.network "fetch failed" u none)))
        "movie" "tt0499549" none none).1 = .error (.notFound "tt0499549") :=
  ⟨searchOnSite_swallows_errors.1 envFail "tt0499549"
      (Err.network "fetch failed" "tt0499549" none) rfl rfl,
   searchOnSite_swallows_errors.2 (fun q => Err.network "fetch failed" q none)
      (Err.network "fetch failed" "meta" none)
      (fun u => Err.network "fetch failed" u none)⟩

end HDFC
